import Mathlib

/-!
Verification of the qutebrowser UI-excerpt specification against the code in
`qutebrowser/widgets/mainwindow.py` and `qutebrowser/models/completion.py`.

The Python code is shallowly embedded: each method becomes a Lean function over
explicit state.  External framework state (the Qt widget tree, the configuration
registry, the command registry, the quickmark manager) is passed in as explicit
parameters; framework calls that can fail (`setData`) take their result as an
explicit boolean parameter.  Python exceptions become `Except`/`Option` results,
Python `None`-able strings become `Option String`, and the float division in
`resize_completion` is carried out exactly over `ℚ`.
-/

namespace Qutebrowser

/-! ### Python string primitives used by the code -/

/-- Value of `10*a + digit` accumulation for Python `int()` over a digit list. -/
def digitsVal (l : List Char) : Nat :=
  l.foldl (fun a c => 10 * a + (c.toNat - 48)) 0

/-- Embedding of Python `int(s)` on strings: optional surrounding whitespace,
optional sign, then at least one decimal digit; anything else raises
`ValueError`, modelled as `none`. -/
def pyInt (s : String) : Option Int :=
  let t := (s.toList.dropWhile Char.isWhitespace).reverse.dropWhile Char.isWhitespace |>.reverse
  let signDigits : Int × List Char :=
    match t with
    | '-' :: rest => (-1, rest)
    | '+' :: rest => (1, rest)
    | l => (1, l)
  if signDigits.2 ≠ [] ∧ signDigits.2.all Char.isDigit then
    some (signDigits.1 * (digitsVal signDigits.2 : Int))
  else
    none

/-- Embedding of Python `s.rstrip(c)` for a single character `c`: remove every
trailing occurrence of `c`. -/
def pyRstripChar (s : String) (c : Char) : String :=
  ⟨(s.toList.reverse.dropWhile (· == c)).reverse⟩

/-- Embedding of Python `s.splitlines()` restricted to `\n` separators (the only
separator occurring in the repository's description strings): the empty string
yields no lines, and a trailing newline does not produce a trailing empty line. -/
def pySplitlines (s : String) : List String :=
  if s.isEmpty then []
  else
    let parts := s.splitOn "\x0a"
    if s.endsWith "\x0a" then parts.dropLast else parts

/-- Python truthiness of an optional string (`None` and `""` are falsy). -/
def pyTruthy : Option String → Bool
  | none => false
  | some s => !s.isEmpty

/-- Python `str()` of an optional string, as used by `"{}".format(value)`. -/
def pyStr : Option String → String
  | none => "None"
  | some s => s

/-! ### Error model -/

/-- The Python exceptions raised by the embedded code. -/
inductive PyErr where
  | valueError (msg : String)
  | keyError (key : String)
deriving DecidableEq, Repr

/-! ### Geometry model (`mainwindow.py`) -/

/-- A Qt point.  Coordinates are rationals because `resize_completion` computes
`self.height() * perc / 100` with Python true division. -/
structure QPointQ where
  x : ℚ
  y : ℚ
deriving DecidableEq, Repr

/-- A Qt rectangle given, as in `QRect(topleft, bottomright)`, by its corners. -/
structure QRectQ where
  topLeft : QPointQ
  bottomRight : QPointQ
deriving DecidableEq, Repr

/-- A Qt rectangle given, as in `QRect(x, y, w, h)`, by origin and size. -/
structure QRectI where
  x : Int
  y : Int
  w : Int
  h : Int
deriving DecidableEq, Repr

/-- The widget-tree measurements read by `MainWindow.resize_completion`. -/
structure MainWindowEnv where
  winHeight : ℚ
  statusHeight : ℚ
  statusTopRight : QPointQ
  inspectorVisible : Bool
  inspectorHeight : ℚ
deriving DecidableEq, Repr

/-- Embedding of `MainWindow.resize_completion`: from the configured
`completion -> height` string and the current widget measurements, the rectangle
passed to `self.completion.setGeometry`, or `none` when `int()` raises. -/
def resize_completion (confheight : String) (w : MainWindowEnv) : Option QRectQ :=
  let height? : Option ℚ :=
    if confheight.endsWith "%" then
      (pyInt (pyRstripChar confheight '%')).map
        (fun perc => w.winHeight * (perc : ℚ) / 100)
    else
      (pyInt confheight).map (fun n => (n : ℚ))
  height?.map (fun height =>
    let topleft : QPointQ := ⟨0, w.winHeight - w.statusHeight - height⟩
    let bottomright : QPointQ := w.statusTopRight
    if w.inspectorVisible then
      ⟨⟨topleft.x - 0, topleft.y - w.inspectorHeight⟩,
       ⟨bottomright.x - 0, bottomright.y - w.inspectorHeight⟩⟩
    else
      ⟨topleft, bottomright⟩)

/-- Embedding of `MainWindow.on_config_changed`: whether a change of
`(section, option)` triggers `resize_completion`. -/
def on_config_changed (sect opt : String) : Bool :=
  sect == "completion" && opt == "height"

/-- The completion rectangle as the specification words it: top-left corner
`(0, window_height - status_bar_height - completion_height)`, bottom-right
corner the top-right corner of the status bar's geometry, both corners shifted
up by the inspector's height exactly when the inspector is visible, where
`completion_height` is `window_height * perc / 100` for a configured string
ending in `%` and an integer pixel count otherwise.  Written from the spec's
words, to be compared with `resize_completion`. -/
def completionRectSpec (confheight : String) (w : MainWindowEnv) : Option QRectQ :=
  let completionHeight? : Option ℚ :=
    if confheight.endsWith "%" then
      (pyInt (pyRstripChar confheight '%')).map
        (fun perc => w.winHeight * (perc : ℚ) / 100)
    else
      (pyInt confheight).map (fun n => (n : ℚ))
  completionHeight?.map (fun completionHeight =>
    let shift : ℚ := if w.inspectorVisible then w.inspectorHeight else 0
    ⟨⟨0, w.winHeight - w.statusHeight - completionHeight - shift⟩,
     ⟨w.statusTopRight.x, w.statusTopRight.y - shift⟩⟩)

/-- The default main-window geometry set by `MainWindow._set_default_geometry`. -/
def default_geometry : QRectI := ⟨50, 50, 800, 600⟩

/-- Outcome of reading and decoding the saved geometry in `MainWindow.__init__`:
the `stateconf` lookup raises `KeyError`, `b64decode` raises `binascii.Error`,
or the bytes decode and `restoreGeometry` reports success or failure. -/
inductive GeometryLoad where
  | keyError
  | binasciiError
  | decoded (restoreOk : Bool) (restored : QRectI)
deriving DecidableEq, Repr

/-- Embedding of the geometry-restoring logic of `MainWindow.__init__`: the
window geometry in effect after the `try`/`except` block (no exception
escapes it). -/
def initWindowGeometry : GeometryLoad → QRectI
  | .keyError => default_geometry
  | .binasciiError => default_geometry
  | .decoded restoreOk restored => if restoreOk then restored else default_geometry

/-- The `MainWindow` state touched by `toggle_inspector`: inspector visibility,
the truthiness of `config.get('webkit', 'developer-extras-enabled')`, the number
of `resize_completion` calls made so far, and the errors shown in the status
bar. -/
structure MainWindowState where
  inspectorVisible : Bool
  devExtrasEnabled : Bool
  resizeCompletionCalls : Nat
  statusErrors : List String
deriving DecidableEq, Repr

/-- Embedding of `MainWindow.toggle_inspector` (the `inspector` command). -/
def toggle_inspector (s : MainWindowState) : MainWindowState :=
  if s.inspectorVisible then
    { s with inspectorVisible := false,
             resizeCompletionCalls := s.resizeCompletionCalls + 1 }
  else if !s.devExtrasEnabled then
    { s with statusErrors := s.statusErrors ++
        ["Please enable developer-extras before using the webinspector!"] }
  else
    { s with inspectorVisible := true,
             resizeCompletionCalls := s.resizeCompletionCalls + 1 }

/-! ### Completion models (`models/completion.py`) -/

/-- The message of the `ValueError` raised when `setData` fails, from
`"Setting data failed! (section: {}, option: {}, value: {})".format(...)`. -/
def setDataFailMsg (sect opt value : String) : String :=
  "Setting data failed! (section: " ++ sect ++ ", option: " ++ opt ++
    ", value: " ++ value ++ ")"

/-- The debug message logged by `update_misc_column` when the option has no
item, from `"Couldn't get item {}.{} from model!".format(section, option)`. -/
def missingItemMsg (sect opt : String) : String :=
  "Couldn\x27t get item " ++ sect ++ "." ++ opt ++ " from model!"

/-- Embedding of a description lookup with the `try`/`except`/`else` pattern of
`SettingOptionCompletionModel.__init__` and `HelpCompletionModel._init_settings`:
`descriptions = none` is a missing `descriptions` attribute (`AttributeError`),
a missing key is `KeyError`, both yielding `""`; otherwise
`desc.splitlines()[0]`, whose out-of-range index is `none`. -/
def lookupDesc (descriptions : Option (List (String × String))) (name : String) :
    Option String :=
  match descriptions with
  | none => some ""
  | some ds =>
    match ds.lookup name with
    | none => some ""
    | some d => (pySplitlines d).head?

/-- The state of a `SettingOptionCompletionModel`: one row per option holding
the name, description, and misc-column value; `_misc_items` is the lookup of a
row by its name. -/
structure SettingOptionCompletionModel where
  rows : List (String × String × Option String)
deriving DecidableEq, Repr

/-- The rows built by the loop of `SettingOptionCompletionModel.__init__`: one
`(name, desc, value)` row per option, in order; `none` when
`desc.splitlines()[0]` raises `IndexError`. -/
def soRows (sectOpts : List String)
    (descriptions : Option (List (String × String)))
    (cfg : String → String → Option String) (sect : String) :
    Option (List (String × String × Option String)) :=
  match sectOpts with
  | [] => some []
  | name :: rest =>
    match lookupDesc descriptions name with
    | none => none
    | some desc =>
      match soRows rest descriptions cfg sect with
      | none => none
      | some rows => some ((name, desc, cfg sect name) :: rows)

/-- Embedding of `SettingOptionCompletionModel.__init__` for a section with
option names `sectOpts`, description map `descriptions`, against configuration
lookup `cfg`. -/
def SettingOptionCompletionModel.init (sectOpts : List String)
    (descriptions : Option (List (String × String)))
    (cfg : String → String → Option String) (sect : String) :
    Option SettingOptionCompletionModel :=
  (soRows sectOpts descriptions cfg sect).map (fun rows => ⟨rows⟩)

/-- Embedding of `SettingOptionCompletionModel.update_misc_column`.  `cfg` is
the configuration registry, `setDataOk` the result of the framework `setData`
call.  Returns the new model state and the debug messages logged, or the raised
exception. -/
def update_misc_column (cfg : String → String → Option String) (setDataOk : Bool)
    (m : SettingOptionCompletionModel) (sect opt : String) :
    Except PyErr (SettingOptionCompletionModel × List String) :=
  match m.rows.lookup opt with
  | none => .ok (m, [missingItemMsg sect opt])
  | some _ =>
    let val := cfg sect opt
    if setDataOk then
      .ok (⟨m.rows.map (fun r => if r.1 = opt then (r.1, r.2.1, val) else r)⟩, [])
    else
      .error (.valueError (setDataFailMsg sect opt (pyStr val)))

/-- The value displayed as the current value by `SettingValueCompletionModel`:
the configured value, with any falsy value replaced by the literal string
`'""'`. -/
def displayValue (v : Option String) : String :=
  if pyTruthy v then pyStr v else "\x22\x22"

/-- A section of `configdata.DATA`: a `ValueList` section carries a shared
`valtype` whose `complete()` result is `complete`; a `KeyValue` section maps
each option to its own `typ.complete()` result.  (`complete()` may return
`None`, hence the inner `Option`.) -/
inductive SectData where
  | valueList (complete : Option (List (String × String)))
  | keyValue (opts : List (String × Option (List (String × String))))
deriving DecidableEq, Repr

/-- The state of a `SettingValueCompletionModel`: the displayed current value
and, when `complete()` returned a list, the rows of the `Allowed` category. -/
structure SettingValueCompletionModel where
  curItem : String
  allowed : Option (List (String × String))
deriving DecidableEq, Repr

/-- Embedding of `SettingValueCompletionModel.__init__` against configdata
`data` and configuration lookup `cfg`; `opt = none` is Python
`option=None`. -/
def SettingValueCompletionModel.init (data : String → Option SectData)
    (cfg : String → Option String → Option String)
    (sect : String) (opt : Option String) :
    Except PyErr SettingValueCompletionModel := do
  let value := displayValue (cfg sect opt)
  let sectdata ← match data sect with
    | some s => pure s
    | none => Except.error (.keyError sect)
  let vals ← match sectdata with
    | .valueList c => pure c
    | .keyValue opts =>
      match opt with
      | none => Except.error (.valueError
          ("option may only be None for ValueList sections, but " ++ sect ++
            " is not!"))
      | some o =>
        match opts.lookup o with
        | some c => pure c
        | none => Except.error (.keyError o)
  pure ⟨value, vals⟩

/-- Embedding of `SettingValueCompletionModel.update_current_value`. -/
def update_current_value (cfg : String → Option String → Option String)
    (setDataOk : Bool) (m : SettingValueCompletionModel)
    (sect : String) (opt : Option String) :
    Except PyErr SettingValueCompletionModel :=
  let value := displayValue (cfg sect opt)
  if setDataOk then
    .ok { m with curItem := value }
  else
    .error (.valueError (setDataFailMsg sect (pyStr opt) value))

/-- A registered command: name, description, and the `hide`/`debug` flags
consulted by the completion models. -/
structure Command where
  name : String
  desc : String
  hide : Bool
  debug : Bool
deriving DecidableEq, Repr

/-- The filter applied to `set(cmdutils.cmd_dict.values())` by
`CommandCompletionModel.__init__` and `HelpCompletionModel._init_commands`:
a command is listed unless it is hidden, or debug-only while the application
did not start in debug mode. -/
def visibleCmds (cmds : List Command) (argsDebug : Bool) : List Command :=
  cmds.filter (fun c => !(c.hide || (c.debug && !argsDebug)))

/-- Python `sorted` comparison on `(name, desc)` pairs: lexicographic tuple
order. -/
def pairLe (p q : String × String) : Bool :=
  decide (p.1 < q.1 ∨ (p.1 = q.1 ∧ p.2 ≤ q.2))

/-- Embedding of the `Commands` category built by
`CommandCompletionModel.__init__`: the visible commands paired with their
descriptions, one entry per alias of the `aliases` config section, sorted. -/
def commandRows (cmds : List Command) (argsDebug : Bool)
    (aliases : List (String × String)) : List (String × String) :=
  ((visibleCmds cmds argsDebug).map (fun c => (c.name, c.desc)) ++
    aliases.map (fun a => (a.1, "Alias for \x27" ++ a.2 ++ "\x27"))).mergeSort pairLe

/-- Embedding of the `Commands` category built by
`HelpCompletionModel._init_commands`: as `commandRows` but with every name
prefixed by `:` and no aliases. -/
def helpCommandRows (cmds : List Command) (argsDebug : Bool) :
    List (String × String) :=
  ((visibleCmds cmds argsDebug).map
    (fun c => (":" ++ c.name, c.desc))).mergeSort pairLe

/-- The rows contributed by one section to the `Settings` category of
`HelpCompletionModel._init_settings`: one `(sectname->optname, desc)` row per
option; `none` when `desc.splitlines()[0]` raises `IndexError`. -/
def helpSectionRows (sectname : String) (opts : List String)
    (descriptions : Option (List (String × String))) :
    Option (List (String × String)) :=
  match opts with
  | [] => some []
  | o :: rest =>
    match lookupDesc descriptions o with
    | none => none
    | some desc =>
      match helpSectionRows sectname rest descriptions with
      | none => none
      | some rows => some ((sectname ++ "->" ++ o, desc) :: rows)

/-- Embedding of the `Settings` category built by
`HelpCompletionModel._init_settings`: `data` lists each section's name, option
names, and description map, in `configdata.DATA` order. -/
def helpSettingsRows
    (data : List (String × List String × Option (List (String × String)))) :
    Option (List (String × String)) :=
  match data with
  | [] => some []
  | s :: rest =>
    match helpSectionRows s.1 s.2.1 s.2.2 with
    | none => none
    | some rows =>
      match helpSettingsRows rest with
      | none => none
      | some more => some (rows ++ more)

/-- Embedding of `QuickmarkCompletionModel._on_quickmarks_changed`: `marks` are
the quickmark manager's `(name, url)` entries; each is appended to `qmlist` as
`(qm_url, qm_name)` and inserted as a `(name, desc)` row. -/
def quickmarkRows (marks : List (String × String)) : List (String × String) :=
  marks.map (fun p => (p.2, p.1))

/-! ### Helper lemmas -/

/-- Looking up `o` after `update_misc_column`'s row rewrite yields the old row
with its misc value replaced. -/
lemma lookup_map_update (rows : List (String × String × Option String))
    (o : String) (v : Option String) :
    (rows.map (fun r => if r.1 = o then (r.1, r.2.1, v) else r)).lookup o =
      (rows.lookup o).map (fun it => (it.1, v)) := by
  induction rows with
  | nil => rfl
  | cons r t ih =>
    rcases r with ⟨k, d, x⟩
    by_cases h : k = o
    · subst h
      have hf : (fun r : String × String × Option String =>
          if r.1 = k then (r.1, r.2.1, v) else r) (k, d, x) = (k, d, v) := by
        simp
      simp only [List.map_cons, hf]
      simp [List.lookup]
    · have hf : (fun r : String × String × Option String =>
          if r.1 = o then (r.1, r.2.1, v) else r) (k, d, x) = (k, d, x) := by
        simp [h]
      have hb : (o == k) = false := by
        simp only [beq_eq_false_iff_ne, ne_eq]
        exact fun hh => h hh.symm
      simp only [List.map_cons, hf]
      simp only [List.lookup, hb, ih]

/-- The command filter of `CommandCompletionModel`/`HelpCompletionModel`, in
propositional form. -/
lemma visible_iff (c : Command) (dbg : Bool) :
    ((!(c.hide || (c.debug && !dbg))) = true) ↔
      (c.hide = false ∧ (c.debug = true → dbg = true)) := by
  cases hh : c.hide <;> cases hd : c.debug <;> cases dbg <;> simp

/-- Transitivity of the Python tuple comparison used by `sorted`. -/
lemma pairLe_trans (a b c : String × String)
    (h1 : pairLe a b = true) (h2 : pairLe b c = true) : pairLe a c = true := by
  simp only [pairLe, decide_eq_true_eq] at h1 h2 ⊢
  rcases h1 with h1 | ⟨h1e, h1le⟩ <;> rcases h2 with h2 | ⟨h2e, h2le⟩
  · exact Or.inl (lt_trans h1 h2)
  · exact Or.inl (h2e ▸ h1)
  · exact Or.inl (h1e ▸ h2)
  · exact Or.inr ⟨h1e.trans h2e, le_trans h1le h2le⟩

/-- Totality of the Python tuple comparison used by `sorted`. -/
lemma pairLe_total (a b : String × String) : (pairLe a b || pairLe b a) = true := by
  simp only [pairLe, Bool.or_eq_true, decide_eq_true_eq]
  rcases lt_trichotomy a.1 b.1 with h | h | h
  · exact Or.inl (Or.inl h)
  · rcases le_total a.2 b.2 with h2 | h2
    · exact Or.inl (Or.inr ⟨h, h2⟩)
    · exact Or.inr (Or.inr ⟨h.symm, h2⟩)
  · exact Or.inr (Or.inl h)

/-- A successfully constructed `SettingValueCompletionModel` displays
`displayValue` of the configured value as its current item. -/
lemma init_curItem_eq (data : String → Option SectData)
    (cfg : String → Option String → Option String) (sect : String)
    (opt : Option String) (m : SettingValueCompletionModel)
    (hok : SettingValueCompletionModel.init data cfg sect opt = .ok m) :
    m.curItem = displayValue (cfg sect opt) := by
  unfold SettingValueCompletionModel.init at hok
  cases hd : data sect with
  | none => rw [hd] at hok; simp [bind, Except.bind, pure, Except.pure] at hok
  | some s =>
    rw [hd] at hok
    cases s with
    | valueList c =>
      simp [bind, Except.bind, pure, Except.pure] at hok
      cases hok
      rfl
    | keyValue opts =>
      cases opt with
      | none => simp [bind, Except.bind, pure, Except.pure] at hok
      | some o =>
        cases hl : opts.lookup o with
        | none => simp [hl, bind, Except.bind, pure, Except.pure] at hok
        | some c =>
          simp [hl, bind, Except.bind, pure, Except.pure] at hok
          cases hok
          rfl

/-- `soRows` with no description map: every description defaults to `""`. -/
lemma soRows_none_desc (opts : List String)
    (cfg : String → String → Option String) (sect : String) :
    soRows opts none cfg sect = some (opts.map (fun n => (n, "", cfg sect n))) := by
  induction opts with
  | nil => rfl
  | cons n t ih => simp [soRows, lookupDesc, ih]

/-- `helpSectionRows` with no description map: every description defaults
to `""`. -/
lemma helpSectionRows_none_desc (sectname : String) (opts : List String) :
    helpSectionRows sectname opts none =
      some (opts.map (fun o => (sectname ++ "->" ++ o, ""))) := by
  induction opts with
  | nil => rfl
  | cons o t ih => simp [helpSectionRows, lookupDesc, ih]

/-- `helpSettingsRows` over sections with no description maps. -/
lemma helpSettingsRows_none_desc (data : List (String × List String)) :
    helpSettingsRows (data.map (fun s => (s.1, s.2, none))) =
      some ((data.map (fun s => s.2.map (fun o => (s.1 ++ "->" ++ o, "")))).flatten) := by
  induction data with
  | nil => rfl
  | cons s t ih => simp [helpSettingsRows, helpSectionRows_none_desc, ih]

/-! ### Claims -/

/-- C1: Every call to `resize_completion` sets the completion geometry to the
rectangle with top-left corner `(0, window_height - status_bar_height -
completion_height)` and bottom-right corner the top-right corner of the status
bar's geometry, where `completion_height` is `window_height * perc / 100` when
the configured `completion -> height` string ends with `%` and an integer pixel
count otherwise, both corners shifted up by the inspector's height exactly when
the inspector is visible; and `on_config_changed` triggers `resize_completion`
exactly when the changed option is `completion -> height`. -/
theorem C1_resize_completion_geometry (confheight : String) (w : MainWindowEnv) :
    resize_completion confheight w = completionRectSpec confheight w ∧
    (∀ sect opt, on_config_changed sect opt = true ↔
      (sect = "completion" ∧ opt = "height")) := by
  constructor
  · simp only [resize_completion, completionRectSpec]
    cases hp : (if confheight.endsWith "%" then
        (pyInt (pyRstripChar confheight '%')).map
          (fun perc => w.winHeight * (perc : ℚ) / 100)
      else
        (pyInt confheight).map (fun n => (n : ℚ))) with
    | none => rfl
    | some height =>
      cases hv : w.inspectorVisible <;> simp [hv, sub_zero]
  · intro sect opt
    simp [on_config_changed]

/-- C1 witness: the source geometry and the spec geometry agree on a concrete
percentage height. -/
theorem C1_witness :
    resize_completion "50%" ⟨600, 20, ⟨800, 580⟩, false, 0⟩ =
      completionRectSpec "50%" ⟨600, 20, ⟨800, 580⟩, false, 0⟩ :=
  (C1_resize_completion_geometry "50%" ⟨600, 20, ⟨800, 580⟩, false, 0⟩).1

/-- C2: When `update_misc_column` or `update_current_value` finds its target
item and `setData` fails, a `ValueError` naming the section, option and value is
raised; when `setData` succeeds, no error is raised. -/
theorem C2_setdata_failure_raises_valueerror
    (cfg : String → String → Option String)
    (cfgv : String → Option String → Option String)
    (m : SettingOptionCompletionModel) (mv : SettingValueCompletionModel)
    (sect opt : String) (optv : Option String)
    (item : String × Option String)
    (hfound : m.rows.lookup opt = some item) :
    (update_misc_column cfg false m sect opt =
        .error (.valueError (setDataFailMsg sect opt (pyStr (cfg sect opt))))) ∧
    (update_misc_column cfg true m sect opt =
        .ok (⟨m.rows.map
          (fun r => if r.1 = opt then (r.1, r.2.1, cfg sect opt) else r)⟩, [])) ∧
    (update_current_value cfgv false mv sect optv =
        .error (.valueError
          (setDataFailMsg sect (pyStr optv) (displayValue (cfgv sect optv))))) ∧
    (update_current_value cfgv true mv sect optv =
        .ok { mv with curItem := displayValue (cfgv sect optv) }) := by
  refine ⟨?_, ?_, ?_, ?_⟩ <;>
    simp [update_misc_column, update_current_value, hfound]

/-- C2 witness: a concrete failing `setData` raises the formatted `ValueError`. -/
theorem C2_witness :
    update_misc_column (fun _ _ => some "blue") false
        ⟨[("background", "descr", some "red")]⟩ "colors" "background" =
      .error (.valueError
        (setDataFailMsg "colors" "background" (pyStr (some "blue")))) :=
  (C2_setdata_failure_raises_valueerror (fun _ _ => some "blue")
    (fun _ _ => some "blue") ⟨[("background", "descr", some "red")]⟩
    ⟨"cur", none⟩ "colors" "background" none ("descr", some "red") rfl).1

/-- C3 counterexample: with the inspector hidden and
`webkit -> developer-extras-enabled` falsy, the `inspector` command leaves the
inspector hidden and does not recompute the completion geometry, contradicting
the claim that every invocation toggles visibility and recomputes geometry. -/
theorem C3_counterexample :
    (toggle_inspector ⟨false, false, 0, []⟩).inspectorVisible = false ∧
    (toggle_inspector ⟨false, false, 0, []⟩).resizeCompletionCalls = 0 := by
  constructor <;> rfl

/-- C3 (amended): the `inspector` command hides a visible inspector and shows a
hidden one, recomputing the completion geometry in both cases, except that when
the inspector is hidden and `webkit -> developer-extras-enabled` is falsy it
only displays an error in the status bar, leaving the inspector hidden and the
geometry untouched. -/
theorem C3_toggle_inspector_amended (s : MainWindowState) :
    (s.inspectorVisible = true →
      toggle_inspector s =
        { s with inspectorVisible := false,
                 resizeCompletionCalls := s.resizeCompletionCalls + 1 }) ∧
    (s.inspectorVisible = false → s.devExtrasEnabled = true →
      toggle_inspector s =
        { s with inspectorVisible := true,
                 resizeCompletionCalls := s.resizeCompletionCalls + 1 }) ∧
    (s.inspectorVisible = false → s.devExtrasEnabled = false →
      toggle_inspector s =
        { s with statusErrors := s.statusErrors ++
            ["Please enable developer-extras before using the webinspector!"] }) := by
  refine ⟨fun h1 => ?_, fun h1 h2 => ?_, fun h1 h2 => ?_⟩
  · simp [toggle_inspector, h1]
  · simp [toggle_inspector, h1, h2]
  · simp [toggle_inspector, h1, h2]

/-- C3 witness: toggling a visible inspector hides it and recomputes the
geometry. -/
theorem C3_witness :
    toggle_inspector ⟨true, true, 3, []⟩ = ⟨false, true, 4, []⟩ :=
  (C3_toggle_inspector_amended ⟨true, true, 3, []⟩).1 rfl

/-- C4: `update_misc_column` for an option with no item in `_misc_items` logs a
debug message and returns, raising no error and leaving the model unchanged,
whatever `setData` would have returned. -/
theorem C4_missing_item_logged_and_ignored
    (cfg : String → String → Option String) (setDataOk : Bool)
    (m : SettingOptionCompletionModel) (sect opt : String)
    (hmissing : m.rows.lookup opt = none) :
    update_misc_column cfg setDataOk m sect opt =
      .ok (m, [missingItemMsg sect opt]) := by
  simp [update_misc_column, hmissing]

/-- C4 witness: a concrete update arriving before initialisation is logged and
ignored. -/
theorem C4_witness :
    update_misc_column (fun _ _ => none) true ⟨[]⟩ "general" "ignore-case" =
      .ok (⟨[]⟩, [missingItemMsg "general" "ignore-case"]) :=
  C4_missing_item_logged_and_ignored (fun _ _ => none) true ⟨[]⟩ "general"
    "ignore-case" rfl

/-- C5 counterexample: a successful `update_current_value` for a configured
value that is the empty string displays the two-character literal `'""'`, not
the configured value, so the displayed value does not equal
`config.get(section, option, raw=True)`. -/
theorem C5_counterexample :
    update_current_value (fun _ _ => some "") true ⟨"old", none⟩ "colors"
        (some "background") =
      .ok ⟨"\x22\x22", none⟩ ∧
    pyStr ((fun _ _ => (some "" : Option String)) "colors" (some "background")) ≠
      "\x22\x22" := by
  constructor
  · rfl
  · decide

/-- C5 (amended): after every successful `update_misc_column` the displayed misc
value equals `config.get(section, option, raw=True)`; after every successful
`update_current_value` the displayed current value equals that configured value
except that a falsy value is displayed as the literal `'""'`. -/
theorem C5_display_reflects_config
    (cfg : String → String → Option String)
    (cfgv : String → Option String → Option String)
    (m : SettingOptionCompletionModel) (mv : SettingValueCompletionModel)
    (sect opt : String) (optv : Option String)
    (item : String × Option String)
    (hfound : m.rows.lookup opt = some item) :
    (∀ m' logs, update_misc_column cfg true m sect opt = .ok (m', logs) →
      m'.rows.lookup opt = some (item.1, cfg sect opt)) ∧
    (∀ mv', update_current_value cfgv true mv sect optv = .ok mv' →
      mv'.curItem = displayValue (cfgv sect optv)) := by
  constructor
  · intro m' logs hok
    simp only [update_misc_column, hfound, if_true] at hok
    cases hok
    show (m.rows.map _).lookup opt = _
    rw [lookup_map_update, hfound]
    rfl
  · intro mv' hok
    simp only [update_current_value, if_true] at hok
    cases hok
    rfl

/-- C5 witness: a concrete successful misc-column update displays the new
configured value. -/
theorem C5_witness :
    (⟨[("background", "descr", some "blue")]⟩ :
        SettingOptionCompletionModel).rows.lookup "background" =
      some ("descr", some "blue") :=
  (C5_display_reflects_config (fun _ _ => some "blue") (fun _ _ => some "blue")
      ⟨[("background", "descr", some "red")]⟩ ⟨"cur", none⟩ "colors"
      "background" none ("descr", some "red") rfl).1
    ⟨[("background", "descr", some "blue")]⟩ [] rfl

/-- C6: missing configuration keys are silently defaulted: a `KeyError` or
`binascii.Error` while restoring the saved geometry yields the default
`QRect(50, 50, 800, 600)` without raising; and an option with no description
entry (`KeyError` or missing `descriptions` attribute) gets the empty string as
its description, both in `SettingOptionCompletionModel.__init__` and in
`HelpCompletionModel._init_settings`. -/
theorem C6_missing_config_defaults :
    (initWindowGeometry .keyError = default_geometry ∧
      initWindowGeometry .binasciiError = default_geometry) ∧
    (∀ name, lookupDesc none name = some "") ∧
    (∀ ds name, ds.lookup name = none → lookupDesc (some ds) name = some "") ∧
    (∀ opts cfg sect, SettingOptionCompletionModel.init opts none cfg sect =
      some ⟨opts.map (fun n => (n, "", cfg sect n))⟩) ∧
    (∀ data : List (String × List String),
      helpSettingsRows (data.map (fun s => (s.1, s.2, none))) =
        some ((data.map (fun s => s.2.map (fun o => (s.1 ++ "->" ++ o, "")))).flatten)) := by
  refine ⟨⟨rfl, rfl⟩, fun name => rfl, ?_, ?_, helpSettingsRows_none_desc⟩
  · intro ds name h
    simp [lookupDesc, h]
  · intro opts cfg sect
    simp [SettingOptionCompletionModel.init, soRows_none_desc]

/-- C6 witness: a description map without the requested option yields the empty
description. -/
theorem C6_witness :
    lookupDesc (some [("ignore-case", "Whether to ignore case")]) "startpage" =
      some "" :=
  C6_missing_config_defaults.2.2.1 [("ignore-case", "Whether to ignore case")]
    "startpage" rfl

/-- C7 counterexample: the quickmark named `mark` with URL
`http://example.com/` is not projected to a row with name `mark` and
description `http://example.com/` — the code swaps the fields. -/
theorem C7_counterexample :
    ("mark", "http://example.com/") ∉
      quickmarkRows [("mark", "http://example.com/")] := by
  decide

/-- C7 (amended): every quickmark held by the quickmark manager is projected
into exactly one display row (a quickmark yields a row, only quickmarks yield
rows, and with distinct quickmark names the rows are duplicate-free), but the
row's name field is the quickmark's URL and its description field is the
quickmark's name. -/
theorem C7_quickmark_rows (marks : List (String × String))
    (hkeys : (marks.map Prod.fst).Nodup) :
    (∀ n u, (n, u) ∈ marks ↔ (u, n) ∈ quickmarkRows marks) ∧
    (quickmarkRows marks).Nodup := by
  have hnodup : marks.Nodup := List.Nodup.of_map _ hkeys
  constructor
  · intro n u
    rw [show quickmarkRows marks = marks.map Prod.swap from rfl,
      show ((u, n) : String × String) = Prod.swap (n, u) from rfl]
    exact (List.mem_map_of_injective Prod.swap_injective).symm
  · exact hnodup.map Prod.swap_injective

/-- C7 witness: a concrete quickmark appears as a row, URL first. -/
theorem C7_witness :
    ("http://example.com/", "mark") ∈ quickmarkRows [("mark", "http://example.com/")] :=
  ((C7_quickmark_rows [("mark", "http://example.com/")] (by decide)).1 "mark"
    "http://example.com/").1 (by decide)

/-- C8: the `Commands` categories of `CommandCompletionModel` and
`HelpCompletionModel` are sorted by the tuple order used by Python `sorted` and
contain exactly the registered commands that are neither hidden nor debug-only
with debug mode off, each paired with its description; `CommandCompletionModel`
additionally lists one entry per alias with description `Alias for '<command>'`,
and `HelpCompletionModel` prefixes every command name with `:`. -/
theorem C8_command_rows (cmds : List Command) (dbg : Bool)
    (aliases : List (String × String)) :
    (commandRows cmds dbg aliases).Pairwise (fun p q => pairLe p q = true) ∧
    (helpCommandRows cmds dbg).Pairwise (fun p q => pairLe p q = true) ∧
    (∀ n d, (n, d) ∈ commandRows cmds dbg aliases ↔
      ((∃ c ∈ cmds, c.hide = false ∧ (c.debug = true → dbg = true) ∧
          n = c.name ∧ d = c.desc) ∨
        (∃ a ∈ aliases, n = a.1 ∧ d = "Alias for \x27" ++ a.2 ++ "\x27"))) ∧
    (∀ n d, (n, d) ∈ helpCommandRows cmds dbg ↔
      (∃ c ∈ cmds, c.hide = false ∧ (c.debug = true → dbg = true) ∧
        n = ":" ++ c.name ∧ d = c.desc)) := by
  refine ⟨List.sorted_mergeSort pairLe_trans pairLe_total _,
    List.sorted_mergeSort pairLe_trans pairLe_total _, ?_, ?_⟩
  · intro n d
    rw [commandRows, (List.mergeSort_perm _ _).mem_iff]
    simp only [List.mem_append, List.mem_map, List.mem_filter, visibleCmds,
      visible_iff, Prod.mk.injEq]
    aesop
  · intro n d
    rw [helpCommandRows, (List.mergeSort_perm _ _).mem_iff]
    simp only [List.mem_map, List.mem_filter, visibleCmds, visible_iff,
      Prod.mk.injEq]
    aesop

/-- C8 witness: a concrete visible command appears in the `Commands` rows. -/
theorem C8_witness :
    ("open", "Open a URL") ∈
      commandRows [⟨"open", "Open a URL", false, false⟩] false [] :=
  ((C8_command_rows [⟨"open", "Open a URL", false, false⟩] false []).2.2.1
      "open" "Open a URL").2
    (Or.inl ⟨⟨"open", "Open a URL", false, false⟩, by decide, rfl, fun h => h,
      rfl, rfl⟩)

/-- C9: constructing `SettingValueCompletionModel` with `option=None` raises a
`ValueError` naming the section when the section's configdata entry has no
`valtype` (a `KeyValue` section), and for a `ValueList` section succeeds with
the completed values coming from the section's shared `valtype`. -/
theorem C9_option_none_requires_valuelist
    (data : String → Option SectData)
    (cfg : String → Option String → Option String) (sect : String) :
    (∀ opts, data sect = some (.keyValue opts) →
      SettingValueCompletionModel.init data cfg sect none =
        .error (.valueError
          ("option may only be None for ValueList sections, but " ++ sect ++
            " is not!"))) ∧
    (∀ c, data sect = some (.valueList c) →
      SettingValueCompletionModel.init data cfg sect none =
        .ok ⟨displayValue (cfg sect none), c⟩) := by
  constructor <;> intro x hx <;>
    simp [SettingValueCompletionModel.init, hx, bind, Except.bind, pure,
      Except.pure]

/-- C9 witness: a concrete `KeyValue` section rejects `option=None` with the
formatted `ValueError`, and a concrete `ValueList` section accepts it with the
shared `valtype`'s completions. -/
theorem C9_witness :
    SettingValueCompletionModel.init (fun _ => some (.keyValue []))
        (fun _ _ => none) "general" none =
      .error (.valueError
        ("option may only be None for ValueList sections, but " ++ "general" ++
          " is not!")) ∧
    SettingValueCompletionModel.init
        (fun _ => some (.valueList (some [("true", "")])))
        (fun _ _ => none) "searchengines" none =
      .ok ⟨displayValue none, some [("true", "")]⟩ :=
  ⟨(C9_option_none_requires_valuelist (fun _ => some (.keyValue []))
      (fun _ _ => none) "general").1 [] rfl,
    (C9_option_none_requires_valuelist
      (fun _ => some (.valueList (some [("true", "")])))
      (fun _ _ => none) "searchengines").2 (some [("true", "")]) rfl⟩

/-- C10: whenever the configured value read by `SettingValueCompletionModel` —
at construction time or in `update_current_value` — is falsy, the displayed
current value is the two-character literal `'""'`. -/
theorem C10_falsy_value_displayed_as_quotes
    (data : String → Option SectData)
    (cfg : String → Option String → Option String)
    (sect : String) (opt : Option String) (mv : SettingValueCompletionModel)
    (hfalsy : pyTruthy (cfg sect opt) = false) :
    (∀ m, SettingValueCompletionModel.init data cfg sect opt = .ok m →
      m.curItem = "\x22\x22") ∧
    (∀ m, update_current_value cfg true mv sect opt = .ok m →
      m.curItem = "\x22\x22") := by
  have hdv : displayValue (cfg sect opt) = "\x22\x22" := by
    simp [displayValue, hfalsy]
  constructor
  · intro m hok
    rw [init_curItem_eq data cfg sect opt m hok, hdv]
  · intro m hok
    simp only [update_current_value, if_true] at hok
    cases hok
    exact hdv

/-- C10 witness: with the configured value absent (`None`), construction
displays `'""'`. -/
theorem C10_witness :
    SettingValueCompletionModel.curItem ⟨"\x22\x22", none⟩ = "\x22\x22" :=
  (C10_falsy_value_displayed_as_quotes (fun _ => some (.valueList none))
    (fun _ _ => none) "general" none ⟨"x", none⟩ rfl).1 ⟨"\x22\x22", none⟩ rfl

end Qutebrowser
